import Mathlib

set_option maxHeartbeats 1000000

/-
Shallow embedding of the brapi request-dispatch layer
(src/brapi/api.py, src/brapi/decorators.py, src/brapi/exceptions.py,
src/brapi/router.py).

Conventions of the embedding:
- Python JSON-serializable values are the inductive `Json`.
- Python exceptions that can reach the dispatch boundary are `PyExc`;
  fallible Python code is `Except PyExc _`.
- A pydantic model class is a `Schema`: applied to the keyword-argument
  dictionary it either returns the validated instance (as a `Json`) or
  raises a pydantic ValidationError carrying `e.errors()` (as a `Json`).
- Dynamic attributes set on a view function by the `validate` decorator
  (validate_query / validate_body) are the structure `Binding`.
- The two request extension slots validated_query / validated_body use
  `Option (Option Json)`: the outer `none` means the attribute was never
  assigned, `some none` means the attribute was assigned the Python value
  None, `some (some v)` means it was assigned a validated model v.
- The first component of `Controller.dispatch` is an event trace recording
  the invocation order of the two hooks and of the five operation methods,
  mirroring the call sites in the source; the second component is the
  outcome: `Except.ok` a response, or `Except.error` for an exception that
  escapes the dispatch method uncaught.
-/

namespace Brapi

/-- JSON values exchanged by the API. -/
inductive Json where
  | null : Json
  | bool : Bool → Json
  | num : Int → Json
  | str : String → Json
  | arr : List Json → Json
  | obj : List (String × Json) → Json

/-- A pydantic model class: called on a keyword-argument dictionary, it
returns the validated instance or fails with the structured per-field
errors that a pydantic ValidationError carries (its errors() payload). -/
def Schema : Type := Json → Except Json Json

/-- Python exceptions that the dispatch boundary distinguishes
(src/brapi/api.py except clauses; the classes are pairwise unrelated). -/
inductive PyExc where
  | validationError : Json → PyExc
  | jsonDecodeError : PyExc
  | notImplementedError : PyExc
  | objectDoesNotExist : PyExc
  | apiException : Json → Json → Option Int → PyExc
  | typeError : PyExc
  | other : String → PyExc

/-- Models APIException.__init__ (src/brapi/exceptions.py) when called with
only a code: message and status_code default to None. -/
def APIException_only_code (code : Json) : PyExc :=
  PyExc.apiException code Json.null none

/-- The incoming request (django HttpRequest plus the two extension slots
declared on APIRequest in src/brapi/api.py).
GET models request.GET.dict() (query parameters, one value per key);
POST models request.POST.dict() (form-encoded body fields);
body_json models json.loads(request.body.decode("utf-8")): the parsed
JSON value, or an error when the body is not valid JSON. -/
structure APIRequest where
  method : String
  GET : List (String × String)
  POST : List (String × String)
  body_json : Except Unit Json
  content_type : String
  validated_query : Option (Option Json)
  validated_body : Option (Option Json)

/-- The validate_query / validate_body attributes that the decorator in
src/brapi/decorators.py attaches to a view function; `none` models the
attribute being absent (hasattr false). -/
structure Binding where
  validate_query : Option Schema
  validate_body : Option Schema

/-- The validate decorator (src/brapi/decorators.py): sets validate_query
when a query model is given and validate_body when a body model is given,
leaving the other attributes of the view function untouched. -/
def validate (query : Option Schema) (body : Option Schema) (view_func : Binding) : Binding :=
  let f1 : Binding :=
    match query with
    | some q => ⟨some q, view_func.validate_body⟩
    | none => view_func
  match body with
  | some b => ⟨f1.validate_query, some b⟩
  | none => f1

/-- A string dictionary turned into the keyword arguments of a model call
(request.GET.dict() and request.POST.dict() produce str-to-str dicts). -/
def strDict (d : List (String × String)) : Json :=
  Json.obj (d.map (fun p => (p.1, Json.str p.2)))

/-- The two setattr calls ending BaseAPI._validate: the request ends up
with both attributes assigned (to the validated model or to Python None). -/
def setSlots (request : APIRequest) (vq vb : Option Json) : APIRequest :=
  ⟨request.method, request.GET, request.POST, request.body_json,
   request.content_type, some vq, some vb⟩

/-- Query half of BaseAPI._validate: when a query model is bound, call it
on request.GET.dict(); a pydantic failure raises ValidationError. When no
query model is bound, validated_query stays None and nothing is parsed. -/
def queryStep (function : Binding) (request : APIRequest) : Except PyExc (Option Json) :=
  match function.validate_query with
  | none => Except.ok none
  | some query_model =>
    match query_model (strDict request.GET) with
    | Except.error errs => Except.error (PyExc.validationError errs)
    | Except.ok v => Except.ok (some v)

/-- Body half of BaseAPI._validate: only runs for POST/PUT/PATCH; JSON
bodies go through json.loads (JSONDecodeError on malformed input), other
content types use request.POST.dict(); the model is called with the parsed
dictionary as keyword arguments (a non-dict JSON body makes the
double-star expansion raise TypeError). When no body model is bound,
validated_body stays None and nothing is parsed. -/
def bodyStep (function : Binding) (request : APIRequest) : Except PyExc (Option Json) :=
  match function.validate_body with
  | none => Except.ok none
  | some body_model =>
    if request.method = "POST" ∨ request.method = "PUT" ∨ request.method = "PATCH" then
      match (if request.content_type = "application/json" then
               match request.body_json with
               | Except.error _ => Except.error PyExc.jsonDecodeError
               | Except.ok j => Except.ok j
             else Except.ok (strDict request.POST)) with
      | Except.error e => Except.error e
      | Except.ok (Json.obj fields) =>
        match body_model (Json.obj fields) with
        | Except.error errs => Except.error (PyExc.validationError errs)
        | Except.ok v => Except.ok (some v)
      | Except.ok _ => Except.error PyExc.typeError
    else Except.ok none

/-- BaseAPI._validate: read the schema attributes of the given function,
validate the query then the body, and assign both extension slots on the
request (the setattr calls run only when neither side raised). -/
def _validate (function : Binding) (request : APIRequest) : Except PyExc APIRequest :=
  match queryStep function request with
  | Except.error e => Except.error e
  | Except.ok validated_query =>
    match bodyStep function request with
    | Except.error e => Except.error e
    | Except.ok validated_body =>
      Except.ok (setSlots request validated_query validated_body)

/-- What an operation method returns: a two-element (body, status) tuple,
or any other JSON-serializable value. -/
inductive OpRet where
  | pair : Json → Int → OpRet
  | plain : Json → OpRet

/-- What an HTTP method handler returns to dispatch: the value returned by
an operation method, or a JsonResponse built directly by the handler (the
PUT/DELETE missing-pk branches). -/
inductive HandlerRet where
  | opVal : OpRet → HandlerRet
  | jsonResp : Json → Int → HandlerRet

/-- The response envelope: JSON body plus HTTP status. -/
structure Response where
  body : Json
  status : Int

/-- The data argument of a JsonResponse call: a plain Python value, or an
HttpResponse object (the case where dispatch re-wraps a handler-built
JsonResponse). -/
inductive RespData where
  | jsonVal : Json → RespData
  | respObj : Json → Int → RespData

/-- django.http.JsonResponse with its default safe=True: a dict argument
produces a JSON response (status defaults to 200 when None is passed);
any non-dict argument raises TypeError. -/
def JsonResponse (data : RespData) (status : Option Int) : Except PyExc Response :=
  match data with
  | RespData.jsonVal (Json.obj fields) => Except.ok ⟨Json.obj fields, status.getD 200⟩
  | _ => Except.error PyExc.typeError

/-- The five canonical operations. -/
inductive OpName where
  | create : OpName
  | list : OpName
  | retrieve : OpName
  | update : OpName
  | destroy : OpName
deriving DecidableEq

/-- Trace events: invocation of the authentication hook, of the generic
validation hook, and of an operation method. -/
inductive Event where
  | authCalled : Event
  | validateCalled : Event
  | opCalled : OpName → Event
deriving DecidableEq

/-- A concrete BaseAPI subclass instance: the schema attributes sitting on
each overridable method (including the put HTTP handler itself, since
BaseAPI.put and BaseAPI.delete pass self.put to _validate), the five
operation methods, and the two hooks. An unoverridden operation is the
inherited default, which raises NotImplementedError. -/
structure Controller where
  create_attrs : Binding
  list_attrs : Binding
  retrieve_attrs : Binding
  update_attrs : Binding
  destroy_attrs : Binding
  put_attrs : Binding
  create : APIRequest → Except PyExc OpRet
  list : APIRequest → Except PyExc OpRet
  retrieve : APIRequest → String → Except PyExc OpRet
  update : APIRequest → String → Except PyExc OpRet
  destroy : APIRequest → String → Except PyExc OpRet
  authenticate : APIRequest → Except PyExc Unit
  validate : APIRequest → Except PyExc Unit

/-- Python truthiness of the walrus test on kwargs.get("pk"): None and the
empty string are falsy. -/
def walrusPk : Option String → Option String
  | none => none
  | some s => if s = "" then none else some s

/-- BaseAPI.get: validate against the retrieve method attributes (for both
the retrieve and the list path), then route on the pk keyword argument. -/
def Controller.get (self : Controller) (request : APIRequest) (pk? : Option String) :
    List Event × Except PyExc HandlerRet :=
  match _validate self.retrieve_attrs request with
  | Except.error e => ([], Except.error e)
  | Except.ok request' =>
    match walrusPk pk? with
    | some pk =>
      ([Event.opCalled OpName.retrieve], (self.retrieve request' pk).map HandlerRet.opVal)
    | none =>
      ([Event.opCalled OpName.list], (self.list request').map HandlerRet.opVal)

/-- BaseAPI.post: validate against the create method attributes, then call
create. The post signature takes no keyword arguments, so a pk keyword
(detail URL) raises TypeError at the call. -/
def Controller.post (self : Controller) (request : APIRequest) (pk? : Option String) :
    List Event × Except PyExc HandlerRet :=
  match pk? with
  | some _ => ([], Except.error PyExc.typeError)
  | none =>
    match _validate self.create_attrs request with
    | Except.error e => ([], Except.error e)
    | Except.ok request' =>
      ([Event.opCalled OpName.create], (self.create request').map HandlerRet.opVal)

/-- BaseAPI.put: with a truthy pk, validate against the attributes of the
put handler itself (the source passes self.put, not self.update, to
_validate) and call update; without a pk, build a 400 JsonResponse. -/
def Controller.put (self : Controller) (request : APIRequest) (pk? : Option String) :
    List Event × Except PyExc HandlerRet :=
  match walrusPk pk? with
  | some pk =>
    match _validate self.put_attrs request with
    | Except.error e => ([], Except.error e)
    | Except.ok request' =>
      ([Event.opCalled OpName.update], (self.update request' pk).map HandlerRet.opVal)
  | none =>
    ([], Except.ok (HandlerRet.jsonResp
      (Json.obj [("error", Json.str "PUT method requires \x27pk\x27 parameter")]) 400))

/-- BaseAPI.delete: with a truthy pk, validate against the attributes of
the put handler (the source passes self.put here too) and call destroy;
without a pk, build a 400 JsonResponse. -/
def Controller.delete (self : Controller) (request : APIRequest) (pk? : Option String) :
    List Event × Except PyExc HandlerRet :=
  match walrusPk pk? with
  | some pk =>
    match _validate self.put_attrs request with
    | Except.error e => ([], Except.error e)
    | Except.ok request' =>
      ([Event.opCalled OpName.destroy], (self.destroy request' pk).map HandlerRet.opVal)
  | none =>
    ([], Except.ok (HandlerRet.jsonResp
      (Json.obj [("error", Json.str "DELETE method requires \x27pk\x27 parameter")]) 400))

/-- django View.dispatch as reached through super().dispatch: route on the
HTTP method name to the matching handler; any other method gets django
http_method_not_allowed, a 405 HttpResponseNotAllowed object (its non-JSON
body is abstracted as null here; like the handler-built JsonResponses, it
is a response object, not a plain value). -/
def superDispatch (self : Controller) (request : APIRequest) (pk? : Option String) :
    List Event × Except PyExc HandlerRet :=
  match request.method with
  | "GET" => Controller.get self request pk?
  | "POST" => Controller.post self request pk?
  | "PUT" => Controller.put self request pk?
  | "DELETE" => Controller.delete self request pk?
  | _ => ([], Except.ok (HandlerRet.jsonResp Json.null 405))

/-- The return-value wrapping inside the try block of BaseAPI.dispatch:
a tuple is unpacked and passed to JsonResponse with its status; anything
else is passed to JsonResponse as-is. A handler-built response object is
therefore fed back into JsonResponse as data, where safe=True rejects the
non-dict argument with TypeError. -/
def wrapReturn : HandlerRet → Except PyExc Response
  | HandlerRet.opVal (OpRet.pair body code) => JsonResponse (RespData.jsonVal body) (some code)
  | HandlerRet.opVal (OpRet.plain v) => JsonResponse (RespData.jsonVal v) none
  | HandlerRet.jsonResp body status => JsonResponse (RespData.respObj body status) none

/-- The except clauses of BaseAPI.dispatch, in source order; the exception
classes are pairwise unrelated, so the first matching clause is the only
matching clause. -/
def exceptionToResponse : PyExc → Response
  | PyExc.validationError errs => ⟨Json.obj [("error", errs)], 400⟩
  | PyExc.jsonDecodeError => ⟨Json.obj [("error", Json.str "Invalid JSON body")], 400⟩
  | PyExc.notImplementedError =>
    ⟨Json.obj [("error", Json.str "Method not supported"),
               ("code", Json.str "method_not_supported")], 400⟩
  | PyExc.objectDoesNotExist =>
    ⟨Json.obj [("error", Json.str "Object does not exist"),
               ("code", Json.str "not_found")], 404⟩
  | PyExc.apiException code message status_code =>
    ⟨Json.obj [("error", message), ("code", code)], status_code.getD 200⟩
  | PyExc.typeError =>
    ⟨Json.obj [("error", Json.str "Server returned invalid data."),
               ("code", Json.str "server_borked")], 500⟩
  | PyExc.other _ =>
    ⟨Json.obj [("error", Json.str "Unknown Error"),
               ("code", Json.str "server_borked")], 500⟩

/-- BaseAPI.dispatch: the two hooks run first, OUTSIDE the try block, so
an exception from either propagates out of dispatch (Except.error);
everything raised inside the try block — super().dispatch, that is request
validation and the operation methods, and the JsonResponse wrapping — is
caught by an except clause and translated to a response. -/
def Controller.dispatch (self : Controller) (request : APIRequest) (pk? : Option String) :
    List Event × Except PyExc Response :=
  match self.authenticate request with
  | Except.error e => ([Event.authCalled], Except.error e)
  | Except.ok _ =>
    match self.validate request with
    | Except.error e => ([Event.authCalled, Event.validateCalled], Except.error e)
    | Except.ok _ =>
      let handled := superDispatch self request pk?
      (Event.authCalled :: Event.validateCalled :: handled.1,
       Except.ok
         (match handled.2 with
          | Except.ok ret =>
            match wrapReturn ret with
            | Except.ok response => response
            | Except.error e => exceptionToResponse e
          | Except.error e => exceptionToResponse e))

/-- A controller class as seen by the router: its name (identifying the
class bound via as_view) and its dunder module path. -/
structure ViewKlass where
  className : String
  module : String

/-- One django path entry: route pattern, bound view class, route name. -/
structure RouteEntry where
  route : String
  view : String
  name : String

/-- The Router of src/brapi/router.py. -/
structure Router where
  urlpatterns : List RouteEntry

/-- Router.add: take the first segment of the module path as the package
name and append the list URL (package/) and the detail URL
(package/<str:pk>/), both bound to the same class. -/
def Router.add (self : Router) (klass : ViewKlass) : Router :=
  let module_name := klass.module
  let package_name := (module_name.splitOn ".").headD ""
  let base_url := package_name ++ "/"
  let detail_url := package_name ++ "/<str:pk>/"
  ⟨self.urlpatterns ++
    [⟨base_url, klass.className, package_name ++ "-list"⟩,
     ⟨detail_url, klass.className, package_name ++ "-detail"⟩]⟩

/-- The urls property: the accumulated urlpatterns. -/
def Router.urls (self : Router) : List RouteEntry :=
  self.urlpatterns

/-! Concrete fixtures used by the theorems below. -/

/-- A method carrying neither schema attribute. -/
def bindingNone : Binding := ⟨none, none⟩

/-- The inherited default of an operation without a pk parameter:
raise NotImplementedError. -/
def defaultOp : APIRequest → Except PyExc OpRet :=
  fun _ => Except.error PyExc.notImplementedError

/-- The inherited default of an operation taking a pk parameter. -/
def defaultOpPk : APIRequest → String → Except PyExc OpRet :=
  fun _ _ => Except.error PyExc.notImplementedError

/-- The default authenticate / validate hooks: pass. -/
def hookPass : APIRequest → Except PyExc Unit :=
  fun _ => Except.ok ()

/-- A subclass overriding nothing: all operations are the inherited
defaults, hooks pass, no schema attributes anywhere. -/
def baseController : Controller :=
  ⟨bindingNone, bindingNone, bindingNone, bindingNone, bindingNone, bindingNone,
   defaultOp, defaultOp, defaultOpPk, defaultOpPk, defaultOpPk,
   hookPass, hookPass⟩

/-- A bare request with the given method: no query parameters, no form
fields, an unparseable body, empty content type, both slots unassigned. -/
def plainRequest (m : String) : APIRequest :=
  ⟨m, [], [], Except.error (), "", none, none⟩

/-- An operation override returning a small JSON object tagged with the
operation name. -/
def opTag (name : String) : Except PyExc OpRet :=
  Except.ok (OpRet.plain (Json.obj [("op", Json.str name)]))

/-- A controller overriding all five operations with tagged successes. -/
def opsController : Controller :=
  ⟨bindingNone, bindingNone, bindingNone, bindingNone, bindingNone, bindingNone,
   fun _ => opTag "create", fun _ => opTag "list",
   fun _ _ => opTag "retrieve", fun _ _ => opTag "update", fun _ _ => opTag "destroy",
   hookPass, hookPass⟩

/-- A controller whose authentication hook raises. -/
def authBoomController : Controller :=
  ⟨bindingNone, bindingNone, bindingNone, bindingNone, bindingNone, bindingNone,
   defaultOp, defaultOp, defaultOpPk, defaultOpPk, defaultOpPk,
   fun _ => Except.error (PyExc.other "auth hook failure"), hookPass⟩

/-- A controller whose generic validation hook raises. -/
def valBoomController : Controller :=
  ⟨bindingNone, bindingNone, bindingNone, bindingNone, bindingNone, bindingNone,
   defaultOp, defaultOp, defaultOpPk, defaultOpPk, defaultOpPk,
   hookPass, fun _ => Except.error (PyExc.other "validate hook failure")⟩

/-! Claim theorems. -/

/-- Claim C1, counterexample: the claim states that no exception raised by
the authentication hook or the generic validation hook escapes the
Dispatcher uncaught; but the hooks run before the try block, so on this
concrete GET request an exception raised by the authentication hook (and,
second conjunct, one raised by the generic validation hook) propagates out
of dispatch instead of being translated into a response envelope. -/
theorem c1_counterexample :
    (Controller.dispatch authBoomController (plainRequest "GET") none).2
      = Except.error (PyExc.other "auth hook failure")
    ∧ (Controller.dispatch valBoomController (plainRequest "GET") none).2
      = Except.error (PyExc.other "validate hook failure") :=
  ⟨rfl, rfl⟩

/-- Claim C1, amended: whenever the authentication hook and the generic
validation hook both return without raising, every failure raised during
the rest of dispatch — routing, request validation, operation execution,
response construction — is caught and translated, and dispatch terminates
in exactly one response envelope; only hook-raised exceptions escape. -/
theorem c1_dispatch_total (c : Controller) (request : APIRequest) (pk? : Option String)
    (hA : c.authenticate request = Except.ok ())
    (hV : c.validate request = Except.ok ()) :
    ∃ r : Response, (Controller.dispatch c request pk?).2 = Except.ok r := by
  unfold Controller.dispatch
  rw [hA, hV]
  exact ⟨_, rfl⟩

/-- Claim C1, witness for the amended theorem at a concrete input. -/
theorem c1_dispatch_total_witness :
    ∃ r : Response, (Controller.dispatch baseController (plainRequest "PUT") none).2
      = Except.ok r :=
  c1_dispatch_total baseController (plainRequest "PUT") none rfl rfl

/-- Claim C3, counterexample: the claim states that with no declared
binding the validated-query slot remains genuinely unset (absent). On this
concrete request with no bindings, _validate succeeds but assigns BOTH
slots the Python value None (modelled as some none): the attribute is set
to null, not left absent (the request had both slots absent beforehand). -/
theorem c3_counterexample :
    _validate bindingNone (plainRequest "GET")
      = Except.ok (setSlots (plainRequest "GET") none none)
    ∧ (setSlots (plainRequest "GET") none none).validated_query
        ≠ (none : Option (Option Json))
    ∧ (setSlots (plainRequest "GET") none none).validated_body
        ≠ (none : Option (Option Json))
    ∧ (plainRequest "GET").validated_query = (none : Option (Option Json)) :=
  ⟨rfl, Option.some_ne_none none, Option.some_ne_none none, rfl⟩

/-- Claim C3, amended: for an operation method with no declared query
(respectively body) schema attribute, the Request Validator performs no
parsing for that side — with neither side bound, _validate succeeds on
every request, whatever its query string or body, without reading them —
but the corresponding slot does not remain unset: the closing setattr
calls assign it the Python value None. -/
theorem c3_unbound_slot_null (b : Binding) (request : APIRequest) :
    (b.validate_query = none → b.validate_body = none →
      _validate b request = Except.ok (setSlots request none none))
    ∧ (∀ r' : APIRequest, _validate b request = Except.ok r' →
        (b.validate_query = none → r'.validated_query = some none)
        ∧ (b.validate_body = none → r'.validated_body = some none)) := by
  constructor
  · intro hq hb
    simp [_validate, queryStep, bodyStep, hq, hb]
  · intro r' h
    constructor
    · intro hq
      simp only [_validate, queryStep, hq] at h
      cases hb : bodyStep b request with
      | error e => rw [hb] at h; cases h
      | ok vb =>
        rw [hb] at h
        cases h
        rfl
    · intro hb
      simp only [_validate, bodyStep, hb] at h
      cases hq : queryStep b request with
      | error e => rw [hq] at h; cases h
      | ok vq =>
        rw [hq] at h
        cases h
        rfl

/-- Claim C3, witness for the amended theorem at a concrete input. -/
theorem c3_unbound_slot_null_witness :
    _validate bindingNone (plainRequest "POST")
      = Except.ok (setSlots (plainRequest "POST") none none) :=
  (c3_unbound_slot_null bindingNone (plainRequest "POST")).1 rfl rfl

/-- Claim C8: Router.add derives the resource name as the first segment of
the module path of the registered class and appends exactly two route
entries — the collection pattern resource/ and the item pattern
resource/<str:pk>/ — both bound to the same class. -/
theorem c8_register_two_routes (r : Router) (klass : ViewKlass) :
    (Router.add r klass).urlpatterns
      = r.urlpatterns ++
        [⟨(klass.module.splitOn ".").headD "" ++ "/", klass.className,
          (klass.module.splitOn ".").headD "" ++ "-list"⟩,
         ⟨(klass.module.splitOn ".").headD "" ++ "/<str:pk>/", klass.className,
          (klass.module.splitOn ".").headD "" ++ "-detail"⟩] :=
  rfl

/-- Claim C9: applying two schema-binding declarations to the same method
in sequence, the later declaration silently overwrites the earlier one on
each side it declares — last write wins for the query-schema side and for
the body-schema side. -/
theorem c9_last_write_wins (f : Binding) (q1 b1 q2 b2 : Option Schema) :
    (∀ q : Schema, q2 = some q →
      (validate q2 b2 (validate q1 b1 f)).validate_query = some q)
    ∧ (∀ b : Schema, b2 = some b →
      (validate q2 b2 (validate q1 b1 f)).validate_body = some b) := by
  constructor
  · intro q hq
    subst hq
    cases b2 <;> simp [validate]
  · intro b hb
    subst hb
    cases q2 <;> simp [validate]

/-- A first concrete pydantic model stand-in: accept anything. -/
def schemaId : Schema := fun j => Except.ok j

/-- A second, distinct concrete pydantic model stand-in. -/
def schemaNull : Schema := fun _ => Except.ok Json.null

/-- Claim C9, witness at a concrete input: a second declaration of both
sides overwrites a first declaration of both sides. -/
theorem c9_last_write_wins_witness :
    (validate (some schemaNull) (some schemaNull)
        (validate (some schemaId) (some schemaId) bindingNone)).validate_query
      = some schemaNull
    ∧ (validate (some schemaNull) (some schemaNull)
        (validate (some schemaId) (some schemaId) bindingNone)).validate_body
      = some schemaNull :=
  ⟨(c9_last_write_wins bindingNone (some schemaId) (some schemaId)
      (some schemaNull) (some schemaNull)).1 schemaNull rfl,
   (c9_last_write_wins bindingNone (some schemaId) (some schemaId)
      (some schemaNull) (some schemaNull)).2 schemaNull rfl⟩

/-- A pydantic model stand-in that requires a field q: validation fails
with a structured message when q is absent from the keyword arguments. -/
def requireQParam : Schema := fun data =>
  match data with
  | Json.obj fields =>
    if fields.any (fun p => p.1 == "q") then Except.ok (Json.obj fields)
    else Except.error (Json.str "missing required query field q")
  | _ => Except.error (Json.str "not a mapping")

/-- A controller declaring a required query schema on list, update and
destroy, with every operation overridden to a tagged success and no
schema attributes on retrieve or on the put handler. -/
def declaredOpsController : Controller :=
  ⟨bindingNone, ⟨some requireQParam, none⟩, bindingNone,
   ⟨some requireQParam, none⟩, ⟨some requireQParam, none⟩, bindingNone,
   fun _ => opTag "create", fun _ => opTag "list",
   fun _ _ => opTag "retrieve", fun _ _ => opTag "update", fun _ _ => opTag "destroy",
   hookPass, hookPass⟩

/-- A controller declaring a required query schema on retrieve only, with
list overridden to a tagged success. -/
def retrieveBoundController : Controller :=
  ⟨bindingNone, bindingNone, ⟨some requireQParam, none⟩,
   bindingNone, bindingNone, bindingNone,
   fun _ => opTag "create", fun _ => opTag "list",
   fun _ _ => opTag "retrieve", fun _ _ => opTag "update", fun _ _ => opTag "destroy",
   hookPass, hookPass⟩

/-- Claim C2, evaluation of the code at the failing inputs. The claim says
the Request Validator runs with the schema attributes of the RESOLVED
operation: a GET without identifier against the list attributes, a PUT
against the update attributes, a DELETE against the destroy attributes.
On declaredOpsController those three operations require a query field q,
and the requests below carry no query parameters at all, so under the
claim each would be a 400 validation failure; the code instead answers 200
with the operation result, because BaseAPI.get always validates against
retrieve, and BaseAPI.put and BaseAPI.delete validate against the put
handler itself. The last conjunct shows the converse: a GET resolved to
list is rejected by a schema declared on retrieve. -/
theorem c2_resolved_binding_ignored :
    (Controller.dispatch declaredOpsController (plainRequest "GET") none).2
      = Except.ok ⟨Json.obj [("op", Json.str "list")], 200⟩
    ∧ (Controller.dispatch declaredOpsController (plainRequest "PUT") (some "1")).2
      = Except.ok ⟨Json.obj [("op", Json.str "update")], 200⟩
    ∧ (Controller.dispatch declaredOpsController (plainRequest "DELETE") (some "1")).2
      = Except.ok ⟨Json.obj [("op", Json.str "destroy")], 200⟩
    ∧ (Controller.dispatch retrieveBoundController (plainRequest "GET") none).2
      = Except.ok ⟨Json.obj [("error", Json.str "missing required query field q")], 400⟩ :=
  ⟨rfl, rfl, rfl, rfl⟩

/-- Claim C4, evaluation of the code. The verb-to-operation routing half
of the claim holds (first five conjuncts: GET with pk invokes retrieve,
GET without invokes list, POST invokes create, PUT with pk invokes update,
DELETE with pk invokes destroy). The missing-identifier half fails
end-to-end: BaseAPI.put and BaseAPI.delete do build the claimed 400
JsonResponse without invoking any operation method (conjuncts six to
eight), but dispatch then feeds that response object back into
JsonResponse, whose safe=True rejects the non-dict argument with
TypeError, so the client receives 500 server_borked (last two conjuncts)
instead of the claimed 400. -/
theorem c4_routing_and_missing_pk :
    (Controller.dispatch opsController (plainRequest "GET") (some "1")).2
      = Except.ok ⟨Json.obj [("op", Json.str "retrieve")], 200⟩
    ∧ (Controller.dispatch opsController (plainRequest "GET") none).2
      = Except.ok ⟨Json.obj [("op", Json.str "list")], 200⟩
    ∧ (Controller.dispatch opsController (plainRequest "POST") none).2
      = Except.ok ⟨Json.obj [("op", Json.str "create")], 200⟩
    ∧ (Controller.dispatch opsController (plainRequest "PUT") (some "1")).2
      = Except.ok ⟨Json.obj [("op", Json.str "update")], 200⟩
    ∧ (Controller.dispatch opsController (plainRequest "DELETE") (some "1")).2
      = Except.ok ⟨Json.obj [("op", Json.str "destroy")], 200⟩
    ∧ Controller.put opsController (plainRequest "PUT") none
      = ([], Except.ok (HandlerRet.jsonResp
          (Json.obj [("error", Json.str "PUT method requires \x27pk\x27 parameter")]) 400))
    ∧ Controller.delete opsController (plainRequest "DELETE") none
      = ([], Except.ok (HandlerRet.jsonResp
          (Json.obj [("error", Json.str "DELETE method requires \x27pk\x27 parameter")]) 400))
    ∧ (Controller.dispatch opsController (plainRequest "PUT") none).1
      = [Event.authCalled, Event.validateCalled]
    ∧ (Controller.dispatch opsController (plainRequest "PUT") none).2
      = Except.ok ⟨Json.obj [("error", Json.str "Server returned invalid data."),
                            ("code", Json.str "server_borked")], 500⟩
    ∧ (Controller.dispatch opsController (plainRequest "DELETE") none).2
      = Except.ok ⟨Json.obj [("error", Json.str "Server returned invalid data."),
                            ("code", Json.str "server_borked")], 500⟩ :=
  ⟨rfl, rfl, rfl, rfl, rfl, rfl, rfl, rfl, rfl, rfl⟩

/-- Claim C5: an APIError raised from handler logic with status S, code C
and message M is translated to a response with HTTP status exactly S and
body with error M and code C. -/
theorem c5_api_error_translation (c : Controller) (request : APIRequest) (pk? : Option String)
    (code message : Json) (status : Int)
    (hA : c.authenticate request = Except.ok ())
    (hV : c.validate request = Except.ok ())
    (hS : (superDispatch c request pk?).2
      = Except.error (PyExc.apiException code message (some status))) :
    (Controller.dispatch c request pk?).2
      = Except.ok ⟨Json.obj [("error", message), ("code", code)], status⟩ := by
  unfold Controller.dispatch
  rw [hA, hV]
  simp [hS, exceptionToResponse]

/-- A controller whose list operation raises an APIException with code,
message and status all set. -/
def apiErrController : Controller :=
  ⟨bindingNone, bindingNone, bindingNone, bindingNone, bindingNone, bindingNone,
   defaultOp,
   fun _ => Except.error (PyExc.apiException (Json.str "teapot")
     (Json.str "short and stout") (some 418)),
   defaultOpPk, defaultOpPk, defaultOpPk, hookPass, hookPass⟩

/-- Claim C5, witness at a concrete input. -/
theorem c5_api_error_translation_witness :
    (Controller.dispatch apiErrController (plainRequest "GET") none).2
      = Except.ok ⟨Json.obj [("error", Json.str "short and stout"),
                            ("code", Json.str "teapot")], 418⟩ :=
  c5_api_error_translation apiErrController (plainRequest "GET") none
    (Json.str "teapot") (Json.str "short and stout") 418 rfl rfl rfl

/-- A controller whose list operation returns a JSON array: a value that
is JSON-serializable but not a dict and not a tuple. -/
def arrController : Controller :=
  ⟨bindingNone, bindingNone, bindingNone, bindingNone, bindingNone, bindingNone,
   defaultOp, fun _ => Except.ok (OpRet.plain (Json.arr [])),
   defaultOpPk, defaultOpPk, defaultOpPk, hookPass, hookPass⟩

/-- Claim C6, counterexample: the claim says any JSON-serializable
non-tuple return value is wrapped with status 200; but a JSON array
returned by list makes JsonResponse (safe=True) raise TypeError on the
non-dict argument, and the client receives 500 server_borked. -/
theorem c6_counterexample :
    (Controller.dispatch arrController (plainRequest "GET") none).2
      = Except.ok ⟨Json.obj [("error", Json.str "Server returned invalid data."),
                            ("code", Json.str "server_borked")], 500⟩ :=
  rfl

/-- Claim C6, amended: a non-tuple return value is wrapped in an envelope
with HTTP status 200 when it is a JSON object (dict); any other
JSON-serializable value makes the response constructor raise TypeError,
translated to 500 server_borked (see the counterexample). -/
theorem c6_dict_value_status_200 (c : Controller) (request : APIRequest) (pk? : Option String)
    (fields : List (String × Json))
    (hA : c.authenticate request = Except.ok ())
    (hV : c.validate request = Except.ok ())
    (hS : (superDispatch c request pk?).2
      = Except.ok (HandlerRet.opVal (OpRet.plain (Json.obj fields)))) :
    (Controller.dispatch c request pk?).2 = Except.ok ⟨Json.obj fields, 200⟩ := by
  unfold Controller.dispatch
  rw [hA, hV]
  simp [hS, wrapReturn, JsonResponse]

/-- A controller whose list operation returns a JSON object. -/
def dictController : Controller :=
  ⟨bindingNone, bindingNone, bindingNone, bindingNone, bindingNone, bindingNone,
   defaultOp, fun _ => Except.ok (OpRet.plain (Json.obj [("ok", Json.bool true)])),
   defaultOpPk, defaultOpPk, defaultOpPk, hookPass, hookPass⟩

/-- Claim C6, witness for the amended theorem at a concrete input. -/
theorem c6_dict_value_status_200_witness :
    (Controller.dispatch dictController (plainRequest "GET") none).2
      = Except.ok ⟨Json.obj [("ok", Json.bool true)], 200⟩ :=
  c6_dict_value_status_200 dictController (plainRequest "GET") none
    [("ok", Json.bool true)] rfl rfl rfl

/-- Claim C7: on every request the authentication hook is invoked first;
when it returns, the generic validation hook is invoked second; and every
invocation of one of the five operation methods comes strictly after both
hooks, in that fixed order. -/
theorem c7_hooks_before_operations (c : Controller) (request : APIRequest) (pk? : Option String) :
    ((Controller.dispatch c request pk?).1.head? = some Event.authCalled)
    ∧ (c.authenticate request = Except.ok () →
        (Controller.dispatch c request pk?).1.take 2
          = [Event.authCalled, Event.validateCalled])
    ∧ (∀ o : OpName, Event.opCalled o ∈ (Controller.dispatch c request pk?).1 →
        ∃ rest : List Event,
          (Controller.dispatch c request pk?).1
            = Event.authCalled :: Event.validateCalled :: rest
          ∧ Event.opCalled o ∈ rest) := by
  unfold Controller.dispatch
  cases hA : c.authenticate request with
  | error e =>
    refine ⟨rfl, ?_, ?_⟩
    · intro h
      simp at h
    · intro o hmem
      simp at hmem
  | ok u =>
    cases u
    cases hV : c.validate request with
    | error e =>
      refine ⟨rfl, fun _ => rfl, ?_⟩
      intro o hmem
      simp at hmem
    | ok v =>
      cases v
      refine ⟨rfl, fun _ => rfl, ?_⟩
      intro o hmem
      simp at hmem
      exact ⟨(superDispatch c request pk?).1, rfl, hmem⟩

/-- Claim C7, witness at a concrete input (a GET with an identifier on the
unoverridden controller: retrieve is invoked, after both hooks). -/
theorem c7_hooks_before_operations_witness :
    ((Controller.dispatch baseController (plainRequest "GET") (some "7")).1.head?
        = some Event.authCalled)
    ∧ ((Controller.dispatch baseController (plainRequest "GET") (some "7")).1.take 2
        = [Event.authCalled, Event.validateCalled])
    ∧ (∃ rest : List Event,
        (Controller.dispatch baseController (plainRequest "GET") (some "7")).1
          = Event.authCalled :: Event.validateCalled :: rest
        ∧ Event.opCalled OpName.retrieve ∈ rest) := by
  obtain ⟨h1, h2, h3⟩ :=
    c7_hooks_before_operations baseController (plainRequest "GET") (some "7")
  exact ⟨h1, h2 rfl, h3 OpName.retrieve (by decide)⟩

/-- Claim C10: raising an APIException constructed with only a code
(message and status_code defaulted to None) yields a response whose body
has error null and code the given code, and whose status falls through to
the JsonResponse default of 200 — a domain error reported with a success
status. -/
theorem c10_defaulted_api_exception (c : Controller) (request : APIRequest) (pk? : Option String)
    (code : Json)
    (hA : c.authenticate request = Except.ok ())
    (hV : c.validate request = Except.ok ())
    (hS : (superDispatch c request pk?).2
      = Except.error (APIException_only_code code)) :
    (Controller.dispatch c request pk?).2
      = Except.ok ⟨Json.obj [("error", Json.null), ("code", code)], 200⟩ := by
  unfold Controller.dispatch
  rw [hA, hV]
  simp [hS, APIException_only_code, exceptionToResponse]

/-- A controller whose list operation raises an APIException built with
only a code. -/
def defaultCodeController : Controller :=
  ⟨bindingNone, bindingNone, bindingNone, bindingNone, bindingNone, bindingNone,
   defaultOp,
   fun _ => Except.error (APIException_only_code (Json.str "quota_exceeded")),
   defaultOpPk, defaultOpPk, defaultOpPk, hookPass, hookPass⟩

/-- Claim C10, witness at a concrete input. -/
theorem c10_defaulted_api_exception_witness :
    (Controller.dispatch defaultCodeController (plainRequest "GET") none).2
      = Except.ok ⟨Json.obj [("error", Json.null),
                            ("code", Json.str "quota_exceeded")], 200⟩ :=
  c10_defaulted_api_exception defaultCodeController (plainRequest "GET") none
    (Json.str "quota_exceeded") rfl rfl rfl

end Brapi
